import Mathlib

/-!
Shallow embedding of the sonicrust playback orchestrator.

The embedding follows the Rust sources:
  src/src/app.rs            (App::new channel capacity, update-loop command arms,
                             refresh_library, sync_mpris)
  src/src/app/playback.rs   (playback methods on App)
  src/src/app/mpris.rs      (sync_mpris, update_mpris_position)
  src/src/app/queue.rs      (queue helpers; also fixes the Tab interface)
  src/src/mpris_handler.rs  (MprisPlayer::send_command, track_to_metadata)
  src/src/player.rs         (Player, PlayerCommand, PlayerState)
  src/src/subsonic.rs       (SubsonicClient methods)

Conventions:
  * f64 / f32 values (volume) are modelled as rationals; the f64 -> f32
    narrowing cast is modelled as exact.
  * Durations and MPRIS Time values are modelled in integer microseconds (Nat).
  * Network calls and the audio device are environment effects; an Env record
    carries their outcomes (success flags and response data).
  * Rust methods that mutate self in place and may return early with an error
    are modelled as functions returning (new state, Option Err): on an error
    the state holds all mutations performed before the early return, exactly
    as the Rust `?` operator leaves `self`.
  * The module root declaring the Tab structure, ActiveSection and AppError is
    not present under src/ (only its users are); Tab is reconstructed from its
    uses in src/src/app/queue.rs, src/src/app/mpris.rs and
    src/src/app/playback.rs: fields `data` and `index`, `get()` returning
    `data.get(index)`, `len()` returning `data.len()`.
-/

namespace Sonicrust

/-- Track, from src/src/app.rs (struct Track) with the Option-typed cover art
used by src/src/app/mpris.rs and built by src/src/subsonic.rs. -/
structure Track where
  id : String
  title : String
  artist : String
  album_artist : Option String
  album : String
  cover_art : Option String
  duration : Int
  track_number : Option Int
  play_count : Option Int
  genres : List String
deriving DecidableEq

/-- Album, from src/src/app.rs. -/
structure Album where
  id : String
  name : String
  artist : String
deriving DecidableEq

/-- Artist, from src/src/app.rs. -/
structure Artist where
  id : String
  name : String
  album_count : Int
deriving DecidableEq

/-- Playlist entries; the playlist tab stores them (shape opaque to the
claims, only an identifier is needed). -/
structure Playlist where
  id : String
  name : String
deriving DecidableEq

/-- mpris_server::PlaybackStatus. -/
inductive PlaybackStatus where
  | Playing
  | Paused
  | Stopped
deriving DecidableEq

/-- mpris_server::Metadata, restricted to the fields sonicrust sets in
track_to_metadata (src/src/mpris_handler.rs, lines 224-248). A fresh
Metadata::default() has no fields set, hence every field is an Option that is
none in the default. -/
structure Metadata where
  trackid : Option String
  title : Option String
  artist : Option (List String)
  album : Option String
  length : Option Int
  art_url : Option String
  album_artist : Option (Option String)
  track_number : Option Int
  use_count : Option Int
  genre : Option (List String)
deriving DecidableEq

/-- Metadata::default(): the empty metadata map. -/
def Metadata.default : Metadata :=
  ⟨none, none, none, none, none, none, none, none, none, none⟩

/-- track_to_metadata, src/src/mpris_handler.rs lines 224-248. -/
def track_to_metadata (track : Track) : Metadata :=
  let track_id := "/org/mpris/MediaPlayer2/Sonicrust/Track/" ++ track.id
  let art_url := match track.cover_art with
    | some url => url
    | none => ""
  { trackid := some track_id
    title := some track.title
    artist := some [track.artist]
    album := some track.album
    length := some track.duration
    art_url := some art_url
    album_artist := some track.album_artist
    track_number := some (track.track_number.getD 0)
    use_count := some (track.play_count.getD 0)
    genre := some track.genres }

/-- PlayerCommand, src/src/player.rs lines 18-30. Volume as a rational. -/
inductive PlayerCommand where
  | Play
  | Pause
  | Stop
  | TogglePlayPause
  | Next
  | Previous
  | SetVolume (v : Rat)
  | SeekRelative (secs : Int)
  | SeekAbsolute (secs : Nat)
deriving DecidableEq

/-- PlayerState, src/src/player.rs lines 31-38: the shared state snapshot
behind the Arc<RwLock<..>>. Position in microseconds. -/
structure PlayerState where
  status : PlaybackStatus
  metadata : Metadata
  volume : Rat
  can_go_next : Bool
  can_go_previous : Bool
  position : Nat
deriving DecidableEq

/-- MPRIS property-change notifications emitted via properties_changed. -/
inductive Property where
  | playbackStatusProp (s : PlaybackStatus)
  | metadataProp (m : Metadata)
  | canGoNextProp (b : Bool)
  | canGoPreviousProp (b : Bool)
  | volumeProp (v : Rat)
deriving DecidableEq

/-- Errors surfaced by App methods (AppError variants NoTrackLoaded and
EmptyQueue from the app module, plus the anyhow errors propagated from the
network, the audio backend and seeking). -/
inductive Err where
  | noTrackLoaded
  | emptyQueue
  | loadFailed
  | scrobbleFailed
  | seekFailed
  | fetchFailed
  | unwrapNone
deriving DecidableEq

/-- Rust f64::clamp(0.0, 1.0) on the rational model. -/
def clamp01 (v : Rat) : Rat :=
  if v < 0 then 0 else if v > 1 then 1 else v

/-- The environment: outcomes of network calls and of the audio device.
Success flags model fallible effects; the functions model the remote
catalog's contents and where a best-effort seek actually lands. -/
structure Env where
  loadOk : Bool
  scrobbleOk : Bool
  seekOk : Bool
  seekLands : Nat → Nat
  albumList : List Album
  artistList : List Artist
  albumSongs : Album → List Track
  artistAlbums : Artist → List Album
  playlistSongs : Playlist → List Track
  fetchOk : Bool

/-- The rodio sink owned by the Player once a stream is loaded
(src/src/player.rs). `url` records which stream load_url loaded, `queueEmpty`
models sink.empty(), `pos` is sink.get_pos() in microseconds. -/
structure SinkState where
  url : String
  paused : Bool
  queueEmpty : Bool
  pos : Nat
  volume : Rat
deriving DecidableEq

/-- Player, src/src/player.rs lines 11-16 (stream handle omitted: it carries
no orchestrator-visible state). -/
structure Player where
  sink : Option SinkState
  volume : Rat
deriving DecidableEq

namespace Player

/-- Player::load_url, src/src/player.rs lines 54-78: stop and drop any
current sink, fetch and decode the stream (fallible), connect a fresh sink
(playing, non-empty, at position 0, at the player volume). -/
def load_url (p : Player) (url : String) (env : Env) : Player × Option Err :=
  let p := { p with sink := none }
  if env.loadOk then
    ({ p with sink := some ⟨url, false, false, 0, p.volume⟩ }, none)
  else
    (p, some Err.loadFailed)

/-- Player::is_finished, src/src/player.rs lines 79-84. -/
def is_finished (p : Player) : Bool :=
  match p.sink with
  | some sink => sink.queueEmpty && !sink.paused
  | none => false

/-- Player::has_track_loaded, src/src/player.rs lines 85-87. -/
def has_track_loaded (p : Player) : Bool :=
  p.sink.isSome

/-- Player::get_position, src/src/player.rs lines 88-95 (Time::ZERO when no
sink). -/
def get_position (p : Player) : Nat :=
  match p.sink with
  | some sink => sink.pos
  | none => 0

/-- Player::play, src/src/player.rs lines 96-101: resume the sink if one is
loaded; always Ok. -/
def play (p : Player) : Player :=
  { p with sink := p.sink.map fun s => { s with paused := false } }

/-- Player::stop, src/src/player.rs lines 102-107: rodio Sink::stop empties
the sink queue; the sink object itself stays loaded. Always Ok. -/
def stop (p : Player) : Player :=
  { p with sink := p.sink.map fun s => { s with queueEmpty := true } }

/-- Player::pause, src/src/player.rs lines 108-113; always Ok. -/
def pause (p : Player) : Player :=
  { p with sink := p.sink.map fun s => { s with paused := true } }

/-- Player::seek_relative, src/src/player.rs lines 114-129: no-op without a
sink; otherwise compute the saturating target and try_seek, returning Err on
seek failure (position untouched then). Where the sink actually lands on a
successful best-effort seek is environment-determined. -/
def seek_relative (p : Player) (delta_sec : Int) (env : Env) : Player × Option Err :=
  match p.sink with
  | none => (p, none)
  | some s =>
    let target : Nat :=
      if delta_sec ≥ 0 then s.pos + delta_sec.toNat * 1000000
      else s.pos - (-delta_sec).toNat * 1000000
    if env.seekOk then
      ({ p with sink := some { s with pos := env.seekLands target } }, none)
    else
      (p, some Err.seekFailed)

/-- Player::seek_absolute, src/src/player.rs lines 130-135: the try_seek
result is discarded, so a failed seek leaves the position unchanged and the
call still returns Ok. -/
def seek_absolute (p : Player) (seconds : Nat) (env : Env) : Player :=
  match p.sink with
  | none => p
  | some s =>
    if env.seekOk then
      { p with sink := some { s with pos := env.seekLands (seconds * 1000000) } }
    else
      p

/-- Player::set_volume, src/src/player.rs lines 136-142: clamp (again) into
[0,1], store, and push to the sink if loaded; always Ok. -/
def set_volume (p : Player) (volume : Rat) : Player :=
  let v := clamp01 volume
  { p with volume := v, sink := p.sink.map fun s => { s with volume := v } }

end Player

/-- SubsonicClient::get_stream_url, src/src/subsonic.rs lines 342-350: a
deterministic URL containing the track id (base URL and auth query
parameters abstracted away). -/
def get_stream_url (id : String) : String :=
  "/rest/stream?id=" ++ id

/-- SubsonicClient::scrobble, src/src/subsonic.rs lines 285-301 (called with
a completed flag from src/src/app/playback.rs): a network call that fails
when the request fails or the server does not answer status ok. -/
def scrobble (env : Env) (_track : Track) (_completed : Bool) : Option Err :=
  if env.scrobbleOk then none else some Err.scrobbleFailed

/-- SubsonicClient::get_all_albums, src/src/subsonic.rs lines 211-232
(success path; the response list is the environment's album list). -/
def get_all_albums (env : Env) : List Album :=
  env.albumList

/-- SubsonicClient::get_all_artists, src/src/subsonic.rs lines 233-253
(success path). -/
def get_all_artists (env : Env) : List Artist :=
  env.artistList

/-- SubsonicClient::get_songs_in_album, src/src/subsonic.rs lines 302-332
(success path). -/
def get_songs_in_album (env : Env) (album : Album) : List Track :=
  env.albumSongs album

/-- SubsonicClient::get_all_songs, src/src/subsonic.rs lines 333-341: one
blocking sequential loop over every album, extending a single Vec. -/
def get_all_songs (env : Env) : List Track :=
  (get_all_albums env).foldl (fun tracks album => tracks ++ get_songs_in_album env album) []

/-- The Tab structure used by the app modules (reconstructed from its uses:
data, index, get() = data.get(index), len() = data.len()). -/
structure Tab (α : Type) where
  data : List α
  index : Nat
deriving DecidableEq

namespace Tab

def get {α : Type} (t : Tab α) : Option α :=
  t.data[t.index]?

def len {α : Type} (t : Tab α) : Nat :=
  t.data.length

end Tab

/-- ActiveSection as used by src/src/app/playback.rs and navigation. -/
inductive ActiveSection where
  | Queue
  | Others
deriving DecidableEq

/-- ActiveTab as matched exhaustively in src/src/app/playback.rs
(play_selected, Others arm). -/
inductive ActiveTab where
  | Search
  | Favorites
  | Songs
  | Artists
  | Albums
  | Playlist
deriving DecidableEq

/-- The App state: the orchestrator-owned fields read and written by the
embedded methods (src/src/app.rs and the src/src/app/ modules). The
notifications field logs the MPRIS properties_changed calls. -/
structure App where
  player : Player
  queue_tab : Tab Track
  tracks_tab : Tab Track
  artist_tab : Tab Artist
  album_tab : Tab Album
  playlist_tab : Tab Playlist
  search_tab : Tab Track
  favorite_tab : Tab Track
  is_playing : Bool
  current_track : Option Track
  playing_index : Nat
  metadata : Metadata
  on_repeat : Bool
  active_section : ActiveSection
  active_tab : ActiveTab
  shared_state : PlayerState
  notifications : List Property

/-- The bounded MPRIS command channel (tokio mpsc, capacity fixed at
construction). diagnostics counts the eprintln emitted on try_send failure. -/
structure CommandChannel where
  capacity : Nat
  buffer : List PlayerCommand
  diagnostics : Nat
deriving DecidableEq

/-- The capacity App::new passes to mpsc::channel, src/src/app.rs line 109. -/
def commandChannelCapacity : Nat := 32

/-- A fresh channel as created in App::new. -/
def CommandChannel.new (capacity : Nat) : CommandChannel :=
  ⟨capacity, [], 0⟩

/-- MprisPlayer::send_command, src/src/mpris_handler.rs lines 23-27:
try_send; a full channel drops the command and emits a diagnostic, the
caller is never blocked (the function is total and always returns). -/
def send_command (ch : CommandChannel) (cmd : PlayerCommand) : CommandChannel :=
  if ch.buffer.length < ch.capacity then
    { ch with buffer := ch.buffer ++ [cmd] }
  else
    { ch with diagnostics := ch.diagnostics + 1 }

/-- Pushing a whole list of commands, in order, without the orchestrator
draining in between. -/
def sendAll (ch : CommandChannel) (cmds : List PlayerCommand) : CommandChannel :=
  cmds.foldl send_command ch

namespace App

/-- App::sync_mpris, src/src/app/mpris.rs lines 9-39 (the version in
src/src/app.rs lines 163-193 is identical up to the tab field holding the
queue selection cursor): derive the status, compute the go-next/previous
flags from the queue selection cursor, commit the whole shared record, emit
the change notifications. -/
def sync_mpris (a : App) : App :=
  let status :=
    if a.is_playing then PlaybackStatus.Playing
    else if a.current_track.isSome then PlaybackStatus.Paused
    else PlaybackStatus.Stopped
  let can_next := decide (a.queue_tab.index < a.queue_tab.len - 1)
  let can_prev := decide (a.queue_tab.index > 0)
  let current_pos := a.player.get_position
  { a with
    shared_state :=
      { status := status
        metadata := a.metadata
        volume := a.shared_state.volume
        can_go_next := can_next
        can_go_previous := can_prev
        position := current_pos }
    notifications := a.notifications ++
      [Property.playbackStatusProp status, Property.metadataProp a.metadata,
       Property.canGoNextProp can_next, Property.canGoPreviousProp can_prev] }

/-- App::update_mpris_position, src/src/app/mpris.rs lines 64-72. -/
def update_mpris_position (a : App) : App :=
  if a.is_playing then
    { a with shared_state := { a.shared_state with position := a.player.get_position } }
  else
    a

/-- App::start_playback, src/src/app/playback.rs lines 35-51: resolve the
stream URL, load and play it, set playing state, index, current track and
metadata, sync shared state, then scrobble a now-playing report (whose
failure propagates after the state was already committed).
load_cover_art_for_track and notify_now_playing touch no playback state and
never return Err (src/src/app/cover_art.rs, src/src/app/mpris.rs). -/
def start_playback (a : App) (track : Track) (queue_index : Nat) (env : Env) :
    App × Option Err :=
  let stream_url := get_stream_url track.id
  match a.player.load_url stream_url env with
  | (p, some e) => ({ a with player := p }, some e)
  | (p, none) =>
    let p := p.play
    let a := { a with
      player := p
      is_playing := true
      playing_index := queue_index
      current_track := some track
      metadata := track_to_metadata track }
    let a := a.sync_mpris
    (a, scrobble env track false)

/-- App::play_from_queue, src/src/app/playback.rs lines 291-296. -/
def play_from_queue (a : App) (index : Nat) (env : Env) : App × Option Err :=
  match a.queue_tab.data[index]? with
  | some track => a.start_playback track index env
  | none => (a, none)

/-- App::play_next, src/src/app/playback.rs lines 52-68. -/
def play_next (a : App) (env : Env) : App × Option Err :=
  if a.current_track.isNone then
    (a, some Err.noTrackLoaded)
  else if a.queue_tab.data.isEmpty then
    (a, some Err.emptyQueue)
  else if a.playing_index < a.queue_tab.data.length - 1 then
    a.play_from_queue (a.playing_index + 1) env
  else
    let a := { a with
      player := a.player.stop
      is_playing := false
      current_track := none
      metadata := Metadata.default }
    (a.sync_mpris, none)

/-- App::play_previous, src/src/app/playback.rs lines 70-82. Note that the
else branch stops playback and clears the metadata but does not clear
current_track. -/
def play_previous (a : App) (env : Env) : App × Option Err :=
  if a.queue_tab.data.isEmpty then
    (a, some Err.emptyQueue)
  else if a.playing_index > 0 then
    a.play_from_queue (a.playing_index - 1) env
  else
    let a := { a with
      player := a.player.stop
      is_playing := false
      metadata := Metadata.default }
    (a.sync_mpris, none)

/-- App::stop_playback, src/src/app/playback.rs lines 84-94. -/
def stop_playback (a : App) : App × Option Err :=
  let a := { a with
    player := a.player.stop
    is_playing := false
    current_track := none
    metadata := Metadata.default }
  (a.sync_mpris, none)

/-- App::set_volume, src/src/app/playback.rs lines 96-112: clamp into [0,1],
apply to the backend, write the shared volume, emit the volume-changed
notification. -/
def set_volume (a : App) (volume : Rat) : App × Option Err :=
  let clamped := clamp01 volume
  let p := a.player.set_volume clamped
  let a := { a with
    player := p
    shared_state := { a.shared_state with volume := clamped }
    notifications := a.notifications ++ [Property.volumeProp clamped] }
  (a, none)

/-- App::toggle_playback, src/src/app/playback.rs lines 9-33. The two
trailing else-if arms on the queue are unreachable (the first three arms
cover every case), exactly as in the source. -/
def toggle_playback (a : App) : App × Option Err :=
  if a.is_playing then
    let a := { a with player := a.player.pause, is_playing := false }
    (a.sync_mpris, none)
  else if a.current_track.isNone then
    (a, some Err.noTrackLoaded)
  else
    let a :=
      if a.player.has_track_loaded then
        { a with player := a.player.play, is_playing := true }
      else
        a
    (a.sync_mpris, none)

/-- App::play_selected_section, src/src/app/playback.rs lines 171-192: in
the Queue section pick the queue entry at songindex and set playing_index to
songindex, then start playback at queue position queue_tab.index (which
overwrites playing_index); with no track, stop (without clearing the
metadata). -/
def play_selected_section (a : App) (songindex : Nat) (env : Env) : App × Option Err :=
  let picked : Option Track × App :=
    match a.active_section with
    | ActiveSection.Queue =>
      (a.queue_tab.data[songindex]?, { a with playing_index := songindex })
    | ActiveSection.Others => (none, a)
  match picked with
  | (some track, a) => a.start_playback track a.queue_tab.index env
  | (none, a) =>
    let a := { a with player := a.player.stop, is_playing := false, current_track := none }
    (a.sync_mpris, none)

/-- Tail of App::play_selected (Others arm), src/src/app/playback.rs lines
276-286: start playback of the chosen track at queue position
queue_tab.index, else stop; then sync. -/
def play_selected_finish (a : App) (track_to_play : Option Track) (env : Env) :
    App × Option Err :=
  match track_to_play with
  | some track =>
    match a.start_playback track a.queue_tab.index env with
    | (a, some e) => (a, some e)
    | (a, none) => (a.sync_mpris, none)
  | none =>
    let a := { a with player := a.player.stop, is_playing := false, current_track := none }
    (a.sync_mpris, none)

/-- App::play_selected, src/src/app/playback.rs lines 193-289: the Queue
section delegates to play_selected_section; the Others section picks a track
from the active tab, possibly replacing the queue wholesale, with network
fetches for the Artists/Albums/Playlist tabs. -/
def play_selected (a : App) (songindex : Nat) (env : Env) : App × Option Err :=
  match a.active_section with
  | ActiveSection.Queue => a.play_selected_section songindex env
  | ActiveSection.Others =>
    match a.active_tab with
    | ActiveTab.Search =>
      match a.search_tab.data[a.search_tab.index]? with
      | some track =>
        let a := { a with
          queue_tab := ⟨a.search_tab.data, a.search_tab.index⟩
          playing_index := a.search_tab.index }
        a.play_selected_finish (some track) env
      | none => a.play_selected_finish none env
    | ActiveTab.Favorites =>
      match a.favorite_tab.data[a.favorite_tab.index]? with
      | some track =>
        let a := { a with queue_tab := ⟨[track], 0⟩, playing_index := 0 }
        a.play_selected_finish (some track) env
      | none => a.play_selected_finish none env
    | ActiveTab.Songs =>
      match a.tracks_tab.get with
      | some track =>
        let a := { a with queue_tab := ⟨[track], 0⟩, playing_index := 0 }
        a.play_selected_finish (some track) env
      | none => a.play_selected_finish none env
    | ActiveTab.Artists =>
      match a.artist_tab.data[a.artist_tab.index]? with
      | some artist =>
        if env.fetchOk then
          let artist_albums := env.artistAlbums artist
          if artist_albums.isEmpty then
            a.play_selected_finish none env
          else
            let songs := artist_albums.flatMap env.albumSongs
            if songs.isEmpty then
              a.play_selected_finish none env
            else
              let a := { a with queue_tab := ⟨songs, 0⟩, playing_index := 0 }
              a.play_selected_finish songs.head? env
        else
          (a, some Err.fetchFailed)
      | none => a.play_selected_finish none env
    | ActiveTab.Albums =>
      match a.album_tab.data[a.album_tab.index]? with
      | some album =>
        if env.fetchOk then
          let songs := env.albumSongs album
          if songs.isEmpty then
            a.play_selected_finish none env
          else
            let a := { a with queue_tab := ⟨songs, 0⟩, playing_index := 0 }
            a.play_selected_finish songs.head? env
        else
          (a, some Err.fetchFailed)
      | none => a.play_selected_finish none env
    | ActiveTab.Playlist =>
      match a.playlist_tab.data[a.playlist_tab.index]? with
      | some playlist =>
        if env.fetchOk then
          let songs := env.playlistSongs playlist
          if songs.isEmpty then
            a.play_selected_finish none env
          else
            let a := { a with queue_tab := ⟨songs, 0⟩, playing_index := 0 }
            a.play_selected_finish songs.head? env
        else
          (a, some Err.fetchFailed)
      | none => a.play_selected_finish none env

/-- App::on_track_finished, src/src/app/playback.rs lines 145-160: scrobble
the completion first (its failure propagates immediately), then either
repeat via play_selected, advance via play_next, or clear and stop. -/
def on_track_finished (a : App) (env : Env) : App × Option Err :=
  match a.current_track with
  | none => (a, some Err.unwrapNone)
  | some track =>
    match scrobble env track true with
    | some e => (a, some e)
    | none =>
      if a.on_repeat then
        a.play_selected a.playing_index env
      else if a.playing_index < a.queue_tab.data.length - 1 then
        a.play_next env
      else
        let a := { a with
          is_playing := false
          current_track := none
          metadata := Metadata.default }
        (a.sync_mpris, none)

/-- App::check_track_finished, src/src/app/playback.rs lines 132-144. -/
def check_track_finished (a : App) (env : Env) : App × Option Err :=
  if !a.is_playing || a.current_track.isNone then
    (a, none)
  else if a.player.is_finished && a.player.has_track_loaded then
    a.on_track_finished env
  else
    (a, none)

/-- One command arm of App::update, src/src/app.rs lines 513-567, on the
current App structure (queue_tab for the queue, play_selected and the
playback methods from src/src/app/playback.rs). -/
def processCommand (a : App) (cmd : PlayerCommand) (env : Env) : App × Option Err :=
  match cmd with
  | PlayerCommand.Play =>
    if a.current_track.isSome then
      let a := { a with player := a.player.play, is_playing := true }
      (a.sync_mpris, none)
    else if !a.queue_tab.data.isEmpty then
      a.play_selected a.playing_index env
    else
      (a, none)
  | PlayerCommand.Pause =>
    let a := { a with player := a.player.pause, is_playing := false }
    (a.sync_mpris, none)
  | PlayerCommand.Stop => a.stop_playback
  | PlayerCommand.TogglePlayPause => a.toggle_playback
  | PlayerCommand.SetVolume v => a.set_volume v
  | PlayerCommand.Next => a.play_next env
  | PlayerCommand.Previous => a.play_previous env
  | PlayerCommand.SeekRelative secs =>
    match a.player.seek_relative secs env with
    | (p, some e) => ({ a with player := p }, some e)
    | (p, none) =>
      let new_pos := p.get_position
      ({ a with player := p, shared_state := { a.shared_state with position := new_pos } },
        none)
  | PlayerCommand.SeekAbsolute secs =>
    let p := a.player.seek_absolute secs env
    let new_pos := p.get_position
    ({ a with player := p, shared_state := { a.shared_state with position := new_pos } },
      none)

/-- The try_recv drain loop of App::update: apply the buffered commands in
FIFO order, stopping at the first arm that returns Err (the ? operator). -/
def drainCommands (a : App) (cmds : List PlayerCommand) (env : Env) : App × Option Err :=
  match cmds with
  | [] => (a, none)
  | c :: rest =>
    match a.processCommand c env with
    | (a, some e) => (a, some e)
    | (a, none) => a.drainCommands rest env

/-- App::update, src/src/app.rs lines 509-571: check for a finished track,
push the position, then drain the command channel; each ? propagates. -/
def update (a : App) (cmds : List PlayerCommand) (env : Env) : App × Option Err :=
  match a.check_track_finished env with
  | (a, some e) => (a, some e)
  | (a, none) => (a.update_mpris_position).drainCommands cmds env

/-- App::refresh_library, src/src/app.rs lines 289-294: a blocking full
fetch awaited inline — the complete song list, artist list and album list
are each fetched and assigned wholesale before the method returns. -/
def refresh_library (a : App) (env : Env) : App :=
  let a := { a with tracks_tab := { a.tracks_tab with data := get_all_songs env } }
  let a := { a with artist_tab := { a.artist_tab with data := get_all_artists env } }
  { a with album_tab := { a.album_tab with data := get_all_albums env } }

end App

/-! ### Concrete inputs used by witnesses and counterexamples -/

/-- A concrete track. -/
def t0 : Track := ⟨"1", "Song A", "Artist A", none, "Album A", none, 180000000, some 1, none, []⟩

/-- A second concrete track, differing from t0. -/
def t1 : Track := ⟨"2", "Song B", "Artist B", none, "Album B", none, 200000000, some 2, none, []⟩

/-- A third concrete track. -/
def t2 : Track := ⟨"3", "Song C", "Artist C", none, "Album C", none, 210000000, some 3, none, []⟩

/-- An environment in which every external effect succeeds. -/
def env0 : Env :=
  ⟨true, true, true, fun n => n, [], [], fun _ => [], fun _ => [], fun _ => [], true⟩

/-- env0 with a failing scrobble endpoint. -/
def envScrobbleFail : Env := { env0 with scrobbleOk := false }

/-- env0 with a failing backend seek. -/
def envSeekFail : Env := { env0 with seekOk := false }

/-- A neutral App state: nothing loaded, empty tabs, committed shared state. -/
def baseApp : App :=
  { player := ⟨none, 1⟩
    queue_tab := ⟨[], 0⟩
    tracks_tab := ⟨[], 0⟩
    artist_tab := ⟨[], 0⟩
    album_tab := ⟨[], 0⟩
    playlist_tab := ⟨[], 0⟩
    search_tab := ⟨[], 0⟩
    favorite_tab := ⟨[], 0⟩
    is_playing := false
    current_track := none
    playing_index := 0
    metadata := Metadata.default
    on_repeat := false
    active_section := ActiveSection.Queue
    active_tab := ActiveTab.Search
    shared_state := ⟨PlaybackStatus.Stopped, Metadata.default, 1, false, false, 0⟩
    notifications := [] }

/-- A paused App: a one-track queue, the track loaded and paused, with a
committed (sync_mpris-consistent) shared state. -/
def pausedApp : App :=
  { baseApp with
    player := ⟨some ⟨get_stream_url "1", true, false, 5000000, 1⟩, 1⟩
    queue_tab := ⟨[t0], 0⟩
    current_track := some t0
    metadata := track_to_metadata t0
    shared_state := ⟨PlaybackStatus.Paused, track_to_metadata t0, 1, false, false, 5000000⟩ }

/-- A playing App: three tracks queued, the middle one loaded and playing,
with a committed shared state. -/
def playingApp : App :=
  { baseApp with
    player := ⟨some ⟨get_stream_url "2", false, false, 5000000, 1⟩, 1⟩
    queue_tab := ⟨[t0, t1, t2], 1⟩
    playing_index := 1
    is_playing := true
    current_track := some t1
    metadata := track_to_metadata t1
    shared_state := ⟨PlaybackStatus.Playing, track_to_metadata t1, 1, true, true, 5000000⟩ }

/-- A playing App sitting at Playing Index 0 of a one-track queue. -/
def prevApp : App :=
  { baseApp with
    player := ⟨some ⟨get_stream_url "1", false, false, 5000000, 1⟩, 1⟩
    queue_tab := ⟨[t0], 0⟩
    is_playing := true
    current_track := some t0
    metadata := track_to_metadata t0
    shared_state := ⟨PlaybackStatus.Playing, track_to_metadata t0, 1, false, false, 5000000⟩ }

/-- Repeat=One is set, track t0 at Playing Index 0 is playing, but the queue
UI selection cursor sits on entry 1. -/
def repApp : App :=
  { baseApp with
    player := ⟨some ⟨get_stream_url "1", false, true, 180000000, 1⟩, 1⟩
    queue_tab := ⟨[t0, t1], 1⟩
    is_playing := true
    current_track := some t0
    playing_index := 0
    on_repeat := true
    metadata := track_to_metadata t0
    shared_state := ⟨PlaybackStatus.Playing, track_to_metadata t0, 1, false, true, 180000000⟩ }

/-- repApp with the queue UI selection cursor aligned with the Playing
Index (both 0). -/
def repOkApp : App :=
  { repApp with queue_tab := ⟨[t0, t1], 0⟩ }

/-- A playing App whose sink has drained (the backend reports the track
finished). -/
def finApp : App :=
  { baseApp with
    player := ⟨some ⟨get_stream_url "1", false, true, 180000000, 1⟩, 1⟩
    queue_tab := ⟨[t0, t1], 0⟩
    is_playing := true
    current_track := some t0
    playing_index := 0
    metadata := track_to_metadata t0
    shared_state := ⟨PlaybackStatus.Playing, track_to_metadata t0, 1, true, false, 180000000⟩ }

/-- An App whose sink sits at position 99 while the committed shared-state
position is stale (0). -/
def seekApp : App :=
  { baseApp with
    player := ⟨some ⟨get_stream_url "1", false, false, 99, 1⟩, 1⟩
    queue_tab := ⟨[t0], 0⟩
    is_playing := true
    current_track := some t0
    metadata := track_to_metadata t0
    shared_state := ⟨PlaybackStatus.Playing, track_to_metadata t0, 1, false, false, 0⟩ }

/-- One synthetic song per album, for the 150-album catalog scenario. -/
def songOf (al : Album) : Track :=
  ⟨al.id, al.name, al.artist, none, al.name, none, 0, none, none, []⟩

/-- A 150-album remote catalog. -/
def catalogAlbums : List Album :=
  (List.range 150).map fun i => ⟨toString i, "Album " ++ toString i, "A"⟩

/-- The environment serving the 150-album catalog, one song per album. -/
def env150 : Env :=
  ⟨true, true, true, fun n => n, catalogAlbums, [], fun al => [songOf al],
    fun _ => [], fun _ => [], true⟩

/-- The five Shared State fields named by the idempotence claim (status,
metadata, volume, can-go-next, can-go-previous). -/
def sharedFieldsEq (s t : PlayerState) : Prop :=
  s.status = t.status ∧ s.metadata = t.metadata ∧ s.volume = t.volume ∧
    s.can_go_next = t.can_go_next ∧ s.can_go_previous = t.can_go_previous

/-! ### Helper lemmas -/

/-- Folding list-append over a fold mirrors flatMap. -/
theorem foldl_append_eq_flatMap {α β : Type} (f : α → List β) (l : List α) :
    ∀ acc : List β, l.foldl (fun t al => t ++ f al) acc = acc ++ l.flatMap f := by
  induction l with
  | nil => intro acc; simp
  | cons a rest ih => intro acc; simp [ih, List.append_assoc]

/-- What a successful start_playback does to the App state
(src/src/app/playback.rs lines 35-51 with both network effects succeeding). -/
theorem start_playback_ok (a : App) (track : Track) (qi : Nat) (env : Env)
    (hl : env.loadOk = true) (hs : env.scrobbleOk = true) :
    (a.start_playback track qi env).2 = none ∧
    (a.start_playback track qi env).1.playing_index = qi ∧
    (a.start_playback track qi env).1.current_track = some track ∧
    (a.start_playback track qi env).1.queue_tab = a.queue_tab ∧
    (a.start_playback track qi env).1.is_playing = true ∧
    (a.start_playback track qi env).1.player.sink =
      some ⟨get_stream_url track.id, false, false, 0, a.player.volume⟩ := by
  simp [App.start_playback, Player.load_url, hl, Player.play, App.sync_mpris,
    scrobble, hs]

/-! ### Claims -/

/-- C6: the command channel has capacity 32 (App::new, src/src/app.rs line
109); MprisPlayer::send_command pushes with try_send, dropping the command
with a diagnostic when the channel is full and never blocking
(src/src/mpris_handler.rs lines 23-27). Sending 40 commands without
draining leaves at most 32 (exactly the first 32, in FIFO order) for the
orchestrator to observe, the other 8 are dropped with diagnostics, and a
further push onto the now-full channel is dropped as well. -/
theorem C6_command_channel_overflow (cmds : List PlayerCommand)
    (h : cmds.length = 40) :
    (sendAll (CommandChannel.new commandChannelCapacity) cmds).buffer.length ≤ 32 ∧
    (sendAll (CommandChannel.new commandChannelCapacity) cmds).buffer = cmds.take 32 ∧
    (sendAll (CommandChannel.new commandChannelCapacity) cmds).diagnostics = 8 ∧
    (∀ c, (send_command (sendAll (CommandChannel.new commandChannelCapacity) cmds) c).buffer =
      (sendAll (CommandChannel.new commandChannelCapacity) cmds).buffer) := by
  have key : ∀ (l : List PlayerCommand) (ch : CommandChannel),
      ch.buffer.length ≤ ch.capacity →
      (sendAll ch l).buffer = ch.buffer ++ l.take (ch.capacity - ch.buffer.length) ∧
      (sendAll ch l).capacity = ch.capacity ∧
      (sendAll ch l).diagnostics = ch.diagnostics + (l.length - (ch.capacity - ch.buffer.length)) := by
    intro l
    induction l with
    | nil => intro ch hch; simp [sendAll]
    | cons c rest ih =>
      intro ch hch
      by_cases hlt : ch.buffer.length < ch.capacity
      · have step : sendAll ch (c :: rest) =
            sendAll ⟨ch.capacity, ch.buffer ++ [c], ch.diagnostics⟩ rest := by
          simp [sendAll, send_command, hlt]
        obtain ⟨hbuf, hcap, hdia⟩ :=
          ih ⟨ch.capacity, ch.buffer ++ [c], ch.diagnostics⟩ (by simp; omega)
        obtain ⟨k, hk⟩ : ∃ k, ch.capacity - ch.buffer.length = k + 1 :=
          ⟨ch.capacity - ch.buffer.length - 1, by omega⟩
        have hk2 : ch.capacity - (ch.buffer ++ [c]).length = k := by simp; omega
        rw [hk2] at hbuf hdia
        refine ⟨?_, ?_, ?_⟩
        · rw [step, hbuf, hk, List.take_succ_cons, List.append_assoc, List.singleton_append]
        · rw [step, hcap]
        · rw [step, hdia, hk]
          simp
      · have heq : ch.buffer.length = ch.capacity := by omega
        have hzero : ch.capacity - ch.buffer.length = 0 := by omega
        have step : sendAll ch (c :: rest) =
            sendAll ⟨ch.capacity, ch.buffer, ch.diagnostics + 1⟩ rest := by
          simp [sendAll, send_command, hlt]
        obtain ⟨hbuf, hcap, hdia⟩ :=
          ih ⟨ch.capacity, ch.buffer, ch.diagnostics + 1⟩ (by simp [heq])
        refine ⟨?_, ?_, ?_⟩
        · rw [step, hbuf]
          simp [hzero, heq]
        · rw [step, hcap]
        · rw [step, hdia]
          simp [hzero, heq]
          omega
  obtain ⟨hbuf, hcap, hdia⟩ := key cmds (CommandChannel.new commandChannelCapacity) (by simp [CommandChannel.new])
  have hb : (sendAll (CommandChannel.new commandChannelCapacity) cmds).buffer = cmds.take 32 := by
    simpa [CommandChannel.new, commandChannelCapacity] using hbuf
  have hlen : (sendAll (CommandChannel.new commandChannelCapacity) cmds).buffer.length = 32 := by
    rw [hb]; simp [h]
  refine ⟨by omega, hb, ?_, ?_⟩
  · simpa [CommandChannel.new, commandChannelCapacity, h] using hdia
  · intro c
    have hcap32 : (sendAll (CommandChannel.new commandChannelCapacity) cmds).capacity = 32 := by
      simpa [CommandChannel.new, commandChannelCapacity] using hcap
    simp [send_command, hlen, hcap32]

/-- C6 witness: 40 Play commands into the capacity-32 channel. -/
theorem C6_witness :
    (List.replicate 40 PlayerCommand.Play).length = 40 ∧
    (sendAll (CommandChannel.new commandChannelCapacity)
      (List.replicate 40 PlayerCommand.Play)).buffer.length ≤ 32 :=
  ⟨by simp, (C6_command_channel_overflow (List.replicate 40 PlayerCommand.Play) (by simp)).1⟩

/-- C8: App::set_volume (src/src/app/playback.rs lines 96-112) clamps any
input — below 0 or above 1 included — into [0,1], stores the clamped value
in Shared State, applies the same clamped value to the backend (the Player
volume field and, when a sink is loaded, the sink volume), emits a
volume-changed notification, and never errors. Volumes are modelled as
rationals; clamp(v, 0, 1) is written max 0 (min 1 v). -/
theorem C8_set_volume_clamps (a : App) (v : Rat) :
    (a.set_volume v).2 = none ∧
    (a.set_volume v).1.shared_state.volume = max 0 (min 1 v) ∧
    (a.set_volume v).1.player.volume = max 0 (min 1 v) ∧
    (a.set_volume v).1.player.sink =
      a.player.sink.map (fun s => { s with volume := max 0 (min 1 v) }) ∧
    (a.set_volume v).1.notifications =
      a.notifications ++ [Property.volumeProp (max 0 (min 1 v))] := by
  have hcl : ∀ w : Rat, clamp01 w = max 0 (min 1 w) := by
    intro w
    unfold clamp01
    split_ifs with h0 h1
    · rw [min_eq_right (le_of_lt (lt_of_lt_of_le h0 zero_le_one)), max_eq_left (le_of_lt h0)]
    · rw [min_eq_left (le_of_lt h1), max_eq_right zero_le_one]
    · rw [min_eq_right (not_lt.mp h1), max_eq_right (not_lt.mp h0)]
  have hidem : clamp01 (clamp01 v) = clamp01 v := by
    rw [hcl (clamp01 v), hcl v]
    have hm0 : (0 : Rat) ≤ max 0 (min 1 v) := le_max_left 0 _
    have hm1 : max 0 (min 1 v) ≤ 1 := max_le zero_le_one (min_le_left 1 v)
    rw [min_eq_right hm1, max_eq_right hm0]
  refine ⟨rfl, ?_, ?_, ?_, ?_⟩
  · show clamp01 v = max 0 (min 1 v)
    exact hcl v
  · show (Player.set_volume a.player (clamp01 v)).volume = max 0 (min 1 v)
    simp only [Player.set_volume]
    rw [hidem, hcl]
  · show (Player.set_volume a.player (clamp01 v)).sink = _
    simp only [Player.set_volume]
    rw [hidem, hcl]
  · show a.notifications ++ [Property.volumeProp (clamp01 v)] = _
    rw [hcl]

/-- C10: App::sync_mpris (src/src/app/mpris.rs lines 9-39; same computation
in src/src/app.rs lines 163-193) commits can-go-next exactly when the queue
UI selection cursor is strictly below queue length minus one and
can-go-previous exactly when that cursor is positive; the Playing Index
plays no role — changing it changes neither flag. -/
theorem C10_can_go_flags (a : App) :
    ((a.sync_mpris).shared_state.can_go_next = true ↔
      (a.queue_tab.index : Int) < (a.queue_tab.data.length : Int) - 1) ∧
    ((a.sync_mpris).shared_state.can_go_previous = true ↔ 0 < a.queue_tab.index) ∧
    (∀ p : Nat,
      (({ a with playing_index := p }).sync_mpris).shared_state.can_go_next =
        (a.sync_mpris).shared_state.can_go_next ∧
      (({ a with playing_index := p }).sync_mpris).shared_state.can_go_previous =
        (a.sync_mpris).shared_state.can_go_previous) := by
  refine ⟨?_, ?_, ?_⟩
  · simp [App.sync_mpris, Tab.len]
    omega
  · simp [App.sync_mpris]
  · intro p
    constructor <;> simp [App.sync_mpris]

/-- C4 counterexample: the claimed two-phase background loader does not
exist. App::refresh_library (src/src/app.rs lines 289-294) awaits
SubsonicClient::get_all_songs (src/src/subsonic.rs lines 333-341), a
blocking sequential fetch over every album; no channel messages, no Loaded
or SongsAppended variants, and no detached task exist anywhere in the
sources. On the claim's own 150-album catalog (one song per album) the one
and only delivery holds the songs of all 150 albums — not a first page of
albums 0-9 (10 songs) — and it reaches the App in a single wholesale
assignment. -/
theorem C4_counterexample :
    (get_all_songs env150).length = 150 ∧
    ¬ (get_all_songs env150).length = 10 ∧
    (App.refresh_library baseApp env150).tracks_tab.data = get_all_songs env150 := by
  have hlen : (get_all_songs env150).length = 150 := by
    have hfold := foldl_append_eq_flatMap (fun al => [songOf al]) catalogAlbums []
    have hsing : ∀ l : List Album, l.flatMap (fun al => [songOf al]) = l.map songOf := by
      intro l
      induction l with
      | nil => rfl
      | cons a rest ih => simp [ih]
    simp only [get_all_songs, get_all_albums, get_songs_in_album, env150]
    rw [hfold, hsing catalogAlbums]
    simp [catalogAlbums]
  exact ⟨hlen, by omega, rfl⟩

/-- C4 amended: library loading is a single blocking full fetch. For every
environment, refresh_library assigns the tracks tab the concatenation of
every album's songs (the result of the one get_all_songs call), and the
artist and album tabs the full remote lists; nothing is batched or
streamed. -/
theorem C4_blocking_full_fetch (a : App) (env : Env) :
    (a.refresh_library env).tracks_tab.data = env.albumList.flatMap env.albumSongs ∧
    (a.refresh_library env).artist_tab.data = env.artistList ∧
    (a.refresh_library env).album_tab.data = env.albumList := by
  refine ⟨?_, rfl, rfl⟩
  show get_all_songs env = _
  unfold get_all_songs get_all_albums get_songs_in_album
  exact foldl_append_eq_flatMap env.albumSongs env.albumList []

/-- play_next with a loaded track and a successor: advances the Playing
Index by one via play_from_queue and start_playback. -/
theorem play_next_advance (a : App) (env : Env)
    (hl : env.loadOk = true) (hs : env.scrobbleOk = true)
    (hc : a.current_track.isSome = true)
    (hsucc : a.playing_index + 1 < a.queue_tab.data.length) :
    (a.play_next env).2 = none ∧
    (a.play_next env).1.playing_index = a.playing_index + 1 ∧
    (a.play_next env).1.current_track = a.queue_tab.data[a.playing_index + 1]? ∧
    (a.play_next env).1.queue_tab = a.queue_tab := by
  have hne : a.queue_tab.data.isEmpty = false := by
    cases hd : a.queue_tab.data with
    | nil => rw [hd] at hsucc; simp at hsucc
    | cons x xs => simp [hd]
  have hlt : a.playing_index < a.queue_tab.data.length - 1 := by omega
  have hget : a.queue_tab.data[a.playing_index + 1]? =
      some (a.queue_tab.data[a.playing_index + 1]) :=
    List.getElem?_eq_getElem hsucc
  obtain ⟨h1, h2, h3, h4, _h5, _h6⟩ :=
    start_playback_ok a (a.queue_tab.data[a.playing_index + 1]) (a.playing_index + 1) env hl hs
  obtain ⟨tr, htr⟩ := Option.isSome_iff_exists.mp hc
  simp [App.play_next, htr, hne, hlt, App.play_from_queue, hget, h1, h2, h3, h4]

/-- play_next with a loaded track but no successor: identical effect to
stop_playback (playback halted, current track and metadata cleared). -/
theorem play_next_at_end (a : App) (env : Env)
    (hc : a.current_track.isSome = true)
    (hne : a.queue_tab.data ≠ [])
    (hend : ¬ a.playing_index < a.queue_tab.data.length - 1) :
    (a.play_next env).2 = none ∧
    (a.play_next env).1.is_playing = false ∧
    (a.play_next env).1.current_track = none ∧
    (a.play_next env).1.metadata = Metadata.default ∧
    (a.play_next env).1 = (a.stop_playback).1 := by
  have hne2 : a.queue_tab.data.isEmpty = false := by
    cases hd : a.queue_tab.data with
    | nil => exact absurd hd hne
    | cons x xs => simp [hd]
  obtain ⟨tr, htr⟩ := Option.isSome_iff_exists.mp hc
  refine ⟨?_, ?_, ?_, ?_, ?_⟩ <;>
    simp [App.play_next, App.stop_playback, htr, hne2, hend, App.sync_mpris]

/-- play_previous with a positive Playing Index inside the queue: moves the
Playing Index back by one. -/
theorem play_previous_back (a : App) (env : Env)
    (hl : env.loadOk = true) (hs : env.scrobbleOk = true)
    (h0 : 0 < a.playing_index)
    (hin : a.playing_index - 1 < a.queue_tab.data.length) :
    (a.play_previous env).2 = none ∧
    (a.play_previous env).1.playing_index = a.playing_index - 1 ∧
    (a.play_previous env).1.current_track = a.queue_tab.data[a.playing_index - 1]? ∧
    (a.play_previous env).1.queue_tab = a.queue_tab := by
  have hne : a.queue_tab.data.isEmpty = false := by
    cases hd : a.queue_tab.data with
    | nil => rw [hd] at hin; simp at hin
    | cons x xs => simp [hd]
  have hget : a.queue_tab.data[a.playing_index - 1]? =
      some (a.queue_tab.data[a.playing_index - 1]) :=
    List.getElem?_eq_getElem hin
  obtain ⟨h1, h2, h3, h4, _h5, _h6⟩ :=
    start_playback_ok a (a.queue_tab.data[a.playing_index - 1]) (a.playing_index - 1) env hl hs
  simp [App.play_previous, hne, h0, App.play_from_queue, hget, h1, h2, h3, h4]

/-- play_previous at Playing Index 0 of a non-empty queue: halts playback
and clears the metadata, but leaves current_track untouched — unlike
stop_playback. -/
theorem play_previous_at_zero (a : App) (env : Env)
    (hne : a.queue_tab.data ≠ [])
    (h0 : a.playing_index = 0) :
    (a.play_previous env).2 = none ∧
    (a.play_previous env).1.is_playing = false ∧
    (a.play_previous env).1.metadata = Metadata.default ∧
    (a.play_previous env).1.current_track = a.current_track := by
  have hne2 : a.queue_tab.data.isEmpty = false := by
    cases hd : a.queue_tab.data with
    | nil => exact absurd hd hne
    | cons x xs => simp [hd]
  refine ⟨?_, ?_, ?_, ?_⟩ <;>
    simp [App.play_previous, hne2, h0, App.sync_mpris]

/-- C3 counterexample: Previous with no further track does not behave
exactly like Stop. prevApp plays t0 at Playing Index 0 of the one-track
queue; App::play_previous (src/src/app/playback.rs lines 70-82) halts
playback and clears the metadata but leaves current_track = some t0, while
App::stop_playback clears it — so afterwards the derived status reads
Paused, not Stopped. -/
theorem C3_counterexample :
    (App.play_previous prevApp env0).2 = none ∧
    (App.play_previous prevApp env0).1.current_track = some t0 ∧
    (App.stop_playback prevApp).1.current_track = none ∧
    (App.play_previous prevApp env0).1.shared_state.status = PlaybackStatus.Paused ∧
    (App.stop_playback prevApp).1.shared_state.status = PlaybackStatus.Stopped := by
  refine ⟨rfl, rfl, rfl, ?_, ?_⟩ <;> rfl

/-- C3 amended: for every non-empty queue with the Playing Index in bounds
(and the remote effects succeeding), Next with a loaded track moves the
Playing Index to index+1 when a successor exists and otherwise behaves
exactly like Stop (halts, clears current track and metadata); Previous
moves it to index-1 when index > 0, but at index 0 it only halts playback
and clears the metadata — the current track is not cleared, so it does not
behave exactly like Stop. -/
theorem C3_next_previous_moves (a : App) (env : Env)
    (hl : env.loadOk = true) (hs : env.scrobbleOk = true)
    (hne : a.queue_tab.data ≠ [])
    (hpi : a.playing_index < a.queue_tab.data.length) :
    (a.current_track.isSome = true → a.playing_index < a.queue_tab.data.length - 1 →
      (a.play_next env).2 = none ∧
      (a.play_next env).1.playing_index = a.playing_index + 1) ∧
    (a.current_track.isSome = true → ¬ a.playing_index < a.queue_tab.data.length - 1 →
      (a.play_next env).2 = none ∧ (a.play_next env).1 = (a.stop_playback).1 ∧
      (a.play_next env).1.is_playing = false ∧
      (a.play_next env).1.current_track = none ∧
      (a.play_next env).1.metadata = Metadata.default) ∧
    (0 < a.playing_index →
      (a.play_previous env).2 = none ∧
      (a.play_previous env).1.playing_index = a.playing_index - 1) ∧
    (a.playing_index = 0 →
      (a.play_previous env).2 = none ∧
      (a.play_previous env).1.is_playing = false ∧
      (a.play_previous env).1.metadata = Metadata.default ∧
      (a.play_previous env).1.current_track = a.current_track) := by
  refine ⟨?_, ?_, ?_, ?_⟩
  · intro hc hlt
    obtain ⟨h1, h2, _, _⟩ := play_next_advance a env hl hs hc (by omega)
    exact ⟨h1, h2⟩
  · intro hc hend
    obtain ⟨h1, _, h3, h4, h5⟩ := play_next_at_end a env hc hne hend
    exact ⟨h1, h5, by rw [h5]; rfl, h3, h4⟩
  · intro h0
    obtain ⟨h1, h2, _, _⟩ := play_previous_back a env hl hs h0 (by omega)
    exact ⟨h1, h2⟩
  · intro h0
    exact play_previous_at_zero a env hne h0

/-- C3 witness: playingApp has three tracks queued with Playing Index 1;
Next advances it to 2, and on prevApp (Playing Index 0) Previous keeps the
current track set. -/
theorem C3_witness :
    ((App.play_next playingApp env0).2 = none ∧
      (App.play_next playingApp env0).1.playing_index = playingApp.playing_index + 1) ∧
    ((App.play_previous prevApp env0).1.current_track = prevApp.current_track) :=
  ⟨(C3_next_previous_moves playingApp env0 rfl rfl (by decide) (by decide)).1 rfl (by decide),
    (((C3_next_previous_moves prevApp env0 rfl rfl (by decide) (by decide)).2.2.2) rfl).2.2.2⟩

/-- C5: from any interior Playing Index i (0 < i < len - 1) with a track
loaded and the remote effects succeeding, applying the Next command and
then the Previous command (the Next/Previous arms of App::update,
src/src/app.rs lines 543-548, via App::play_next / App::play_previous and
App::play_from_queue) returns the Playing Index to i. -/
theorem C5_next_previous_roundtrip (a : App) (env : Env)
    (hl : env.loadOk = true) (hs : env.scrobbleOk = true)
    (hc : a.current_track.isSome = true)
    (h0 : 0 < a.playing_index)
    (h1 : a.playing_index < a.queue_tab.data.length - 1) :
    (a.drainCommands [PlayerCommand.Next, PlayerCommand.Previous] env).2 = none ∧
    (a.drainCommands [PlayerCommand.Next, PlayerCommand.Previous] env).1.playing_index
      = a.playing_index := by
  obtain ⟨n1, n2, n3, n4⟩ := play_next_advance a env hl hs hc (by omega)
  rcases hnx : a.play_next env with ⟨b, errb⟩
  rw [hnx] at n1 n2 n3 n4
  simp only at n1 n2 n3 n4
  subst n1
  have hbc : b.current_track.isSome = true := by
    rw [n3, List.getElem?_eq_getElem (by omega : a.playing_index + 1 < a.queue_tab.data.length)]
    rfl
  have hb0 : 0 < b.playing_index := by omega
  have hbin : b.playing_index - 1 < b.queue_tab.data.length := by
    rw [n4, n2]
    omega
  obtain ⟨p1, p2, _, _⟩ := play_previous_back b env hl hs hb0 hbin
  simp only [App.drainCommands, App.processCommand, hnx]
  rcases hpv : b.play_previous env with ⟨c, errc⟩
  rw [hpv] at p1 p2
  simp only at p1 p2
  subst p1
  simp only [App.drainCommands]
  refine ⟨by simp, ?_⟩
  rw [p2, n2]
  omega

/-- C5 witness: on playingApp (Playing Index 1 of a three-track queue),
Next then Previous returns the Playing Index to 1. -/
theorem C5_witness :
    (App.drainCommands playingApp [PlayerCommand.Next, PlayerCommand.Previous] env0).2 = none ∧
    (App.drainCommands playingApp [PlayerCommand.Next, PlayerCommand.Previous] env0).1.playing_index
      = playingApp.playing_index :=
  C5_next_previous_roundtrip playingApp env0 rfl rfl rfl (by decide) (by decide)

/-- C9: with a committed (sync_mpris-consistent) shared state, processing
Pause while already paused, or Play while a track is already playing
(the Pause/Play arms of App::update, src/src/app.rs lines 513-533), leaves
the Shared State fields named by the claim — status, metadata, volume,
can-go-next, can-go-previous — unchanged; only notifications are re-emitted. -/
theorem C9_pause_play_idempotent (a : App) (env : Env)
    (hst : a.shared_state.status =
      (if a.is_playing then PlaybackStatus.Playing
       else if a.current_track.isSome then PlaybackStatus.Paused
       else PlaybackStatus.Stopped))
    (hmd : a.shared_state.metadata = a.metadata)
    (hcn : a.shared_state.can_go_next = decide (a.queue_tab.index < a.queue_tab.len - 1))
    (hcp : a.shared_state.can_go_previous = decide (a.queue_tab.index > 0)) :
    (a.is_playing = false → a.current_track.isSome = true →
      (a.processCommand PlayerCommand.Pause env).2 = none ∧
      sharedFieldsEq (a.processCommand PlayerCommand.Pause env).1.shared_state a.shared_state) ∧
    (a.is_playing = true → a.current_track.isSome = true →
      (a.processCommand PlayerCommand.Play env).2 = none ∧
      sharedFieldsEq (a.processCommand PlayerCommand.Play env).1.shared_state a.shared_state) := by
  constructor
  · intro hp hc
    refine ⟨rfl, ?_, ?_, ?_, ?_, ?_⟩ <;>
      simp [App.processCommand, App.sync_mpris, sharedFieldsEq, Player.pause,
        hst, hmd, hcn, hcp, hp, hc]
  · intro hp hc
    refine ⟨by simp [App.processCommand, hc], ?_, ?_, ?_, ?_, ?_⟩ <;>
      simp [App.processCommand, App.sync_mpris, sharedFieldsEq, Player.play,
        hst, hmd, hcn, hcp, hp, hc]

/-- C1 counterexample: in repApp, Repeat=One is set, t0 at Playing Index 0
just finished, but the queue UI selection cursor sits on entry 1. The
restart path (App::on_track_finished, src/src/app/playback.rs lines
145-160, via App::play_selected and App::play_selected_section) reloads the
entry at the old Playing Index yet then sets the Playing Index to the
selection cursor: afterwards the Playing Index is 1 — not its
pre-transition value 0 — and the loaded track t0 is not the queue entry t1
found at the new index. The claim's "for every UI selection state" fails. -/
theorem C1_counterexample :
    repApp.on_repeat = true ∧
    repApp.playing_index = 0 ∧
    (App.on_track_finished repApp env0).2 = none ∧
    (App.on_track_finished repApp env0).1.playing_index = 1 ∧
    (App.on_track_finished repApp env0).1.current_track = some t0 ∧
    repApp.queue_tab.data[(App.on_track_finished repApp env0).1.playing_index]? = some t1 ∧
    ¬ t0 = t1 := by
  refine ⟨rfl, rfl, rfl, rfl, rfl, rfl, by decide⟩

/-- C1 amended: with Repeat=One, when the Queue section is active and the
queue UI selection cursor equals the Playing Index, the track-finished
transition does restart the same queue entry: the Playing Index keeps its
value, the queue is unchanged, and the backend is loaded with the stream of
the entry at that index. (In general the restart reloads the entry at the
pre-transition Playing Index but then sets the Playing Index to the queue
selection cursor; with another section or tab active it plays that tab's
selection instead.) -/
theorem C1_repeat_one_restart (a : App) (env : Env)
    (hl : env.loadOk = true) (hs : env.scrobbleOk = true)
    (hc : a.current_track.isSome = true)
    (hrep : a.on_repeat = true)
    (hsec : a.active_section = ActiveSection.Queue)
    (hidx : a.queue_tab.index = a.playing_index)
    (hpi : a.playing_index < a.queue_tab.data.length) :
    (a.on_track_finished env).2 = none ∧
    (a.on_track_finished env).1.playing_index = a.playing_index ∧
    (a.on_track_finished env).1.current_track = a.queue_tab.data[a.playing_index]? ∧
    (a.on_track_finished env).1.queue_tab.data = a.queue_tab.data ∧
    (a.on_track_finished env).1.player.sink =
      (a.queue_tab.data[a.playing_index]?).map
        (fun t => ⟨get_stream_url t.id, false, false, 0, a.player.volume⟩) := by
  obtain ⟨tr, htr⟩ := Option.isSome_iff_exists.mp hc
  have hget : a.queue_tab.data[a.playing_index]? =
      some (a.queue_tab.data[a.playing_index]) :=
    List.getElem?_eq_getElem hpi
  have step1 : a.on_track_finished env = a.play_selected a.playing_index env := by
    unfold App.on_track_finished
    rw [htr]
    simp [scrobble, hs, hrep]
  have step2 : a.play_selected a.playing_index env =
      a.play_selected_section a.playing_index env := by
    unfold App.play_selected
    rw [hsec]
  have heta2 : { a with active_section := ActiveSection.Queue } = a := by
    rw [← hsec]
  have step3 : a.play_selected_section a.playing_index env =
      a.start_playback (a.queue_tab.data[a.playing_index]) a.queue_tab.index env := by
    unfold App.play_selected_section
    rw [hsec]
    simp only [hget]
    rw [heta2]
  rw [step1, step2, step3]
  obtain ⟨h1, h2, h3, h4, _h5, h6⟩ :=
    start_playback_ok a (a.queue_tab.data[a.playing_index]) a.queue_tab.index env hl hs
  have h2q := h2.trans hidx
  refine ⟨h1, h2q, ?_, by rw [h4], ?_⟩
  · rw [h3, hget]
  · rw [h6, hget]
    rfl

/-- C1 witness: repOkApp has the selection cursor on the playing entry;
the Repeat=One restart keeps the Playing Index. -/
theorem C1_witness :
    (App.on_track_finished repOkApp env0).2 = none ∧
    (App.on_track_finished repOkApp env0).1.playing_index = repOkApp.playing_index :=
  ⟨(C1_repeat_one_restart repOkApp env0 rfl rfl rfl rfl rfl rfl (by decide)).1,
    (C1_repeat_one_restart repOkApp env0 rfl rfl rfl rfl rfl rfl (by decide)).2.1⟩

/-- C2 counterexample: finApp is playing t0 and its sink has drained; with
the scrobble endpoint failing, App::on_track_finished
(src/src/app/playback.rs lines 145-160) propagates the error with the ?
operator before any restart/advance/clear: App::update returns the error
(which run_app in src/src/main.rs then propagates out of the loop) and the
playback state is completely unchanged — the transition did not complete,
and the failure was not merely logged. -/
theorem C2_counterexample :
    finApp.is_playing = true ∧
    App.update finApp [] envScrobbleFail = (finApp, some Err.scrobbleFailed) ∧
    (App.update finApp [] envScrobbleFail).1.current_track = some t0 ∧
    (App.update finApp [] envScrobbleFail).1.playing_index = finApp.playing_index := by
  refine ⟨rfl, rfl, rfl, rfl⟩

/-- C2 amended: if reporting play-completion fails during the
track-finished transition, the orchestrator IS stranded for that tick: the
transition aborts before restart/advance/clear, the whole App state is left
exactly as it was, and the error propagates out of App::update (src/src/
app.rs lines 509-571) to the caller. -/
theorem C2_scrobble_failure_propagates (a : App) (cmds : List PlayerCommand) (env : Env)
    (hs : env.scrobbleOk = false)
    (hp : a.is_playing = true)
    (hc : a.current_track.isSome = true)
    (hf : a.player.is_finished = true) :
    a.update cmds env = (a, some Err.scrobbleFailed) := by
  obtain ⟨tr, htr⟩ := Option.isSome_iff_exists.mp hc
  have hht : a.player.has_track_loaded = true := by
    unfold Player.is_finished at hf
    unfold Player.has_track_loaded
    cases hsink : a.player.sink with
    | none => rw [hsink] at hf; simp at hf
    | some s => rfl
  simp [App.update, App.check_track_finished, hp, htr, hf, hht,
    App.on_track_finished, scrobble, hs]

/-- C2 witness: the propagation theorem applied to finApp with a pending
Play command. -/
theorem C2_witness :
    App.update finApp [PlayerCommand.Play] envScrobbleFail = (finApp, some Err.scrobbleFailed) :=
  C2_scrobble_failure_propagates finApp [PlayerCommand.Play] envScrobbleFail rfl rfl rfl rfl

/-- C7 counterexample: in seekApp the sink sits at position 99 while the
committed Shared State position is stale (0). When the backend seek fails,
the SeekRelative arm of App::update (src/src/app.rs lines 552-559) hits the
? on Player::seek_relative (src/src/player.rs lines 114-129) before the
re-query: the command errors out and the Shared State position stays 0
instead of being set to the backend's re-queried position 99 — contradicting
"including when the underlying seek fails". -/
theorem C7_counterexample :
    (App.processCommand seekApp (PlayerCommand.SeekRelative 5) envSeekFail).2 =
      some Err.seekFailed ∧
    (App.processCommand seekApp (PlayerCommand.SeekRelative 5) envSeekFail).1.shared_state.position = 0 ∧
    (App.processCommand seekApp (PlayerCommand.SeekRelative 5) envSeekFail).1.player.get_position = 99 ∧
    ¬ (0 : Nat) = 99 := by
  refine ⟨rfl, rfl, rfl, by decide⟩

/-- C7 amended: the seek arms re-query the backend position into Shared
State — never trusting the requested offset — whenever the underlying seek
call returns Ok: always for SeekAbsolute (whose seek failure is swallowed,
src/src/player.rs lines 130-135) and for SeekRelative when the backend seek
succeeds or nothing is loaded. A failing SeekRelative instead propagates an
error and leaves the Shared State position unwritten. -/
theorem C7_seek_requery (a : App) (env : Env) (d : Int) (s : Nat) :
    (env.seekOk = true →
      (a.processCommand (PlayerCommand.SeekRelative d) env).2 = none ∧
      (a.processCommand (PlayerCommand.SeekRelative d) env).1.shared_state.position =
        (a.processCommand (PlayerCommand.SeekRelative d) env).1.player.get_position) ∧
    ((a.processCommand (PlayerCommand.SeekAbsolute s) env).2 = none ∧
      (a.processCommand (PlayerCommand.SeekAbsolute s) env).1.shared_state.position =
        (a.processCommand (PlayerCommand.SeekAbsolute s) env).1.player.get_position) ∧
    (env.seekOk = false → a.player.sink.isSome = true →
      (a.processCommand (PlayerCommand.SeekRelative d) env).2 = some Err.seekFailed ∧
      (a.processCommand (PlayerCommand.SeekRelative d) env).1.shared_state.position =
        a.shared_state.position) := by
  refine ⟨?_, ?_, ?_⟩
  · intro hseek
    cases hsink : a.player.sink with
    | none =>
      constructor <;>
        simp [App.processCommand, Player.seek_relative, hsink, Player.get_position]
    | some sk =>
      constructor <;>
        simp [App.processCommand, Player.seek_relative, hsink, hseek, Player.get_position]
  · cases hsink : a.player.sink with
    | none =>
      constructor <;>
        simp [App.processCommand, Player.seek_absolute, hsink, Player.get_position]
    | some sk =>
      cases hseek : env.seekOk <;> constructor <;>
        simp [App.processCommand, Player.seek_absolute, hsink, hseek, Player.get_position]
  · intro hseek hsome
    obtain ⟨sk, hsk⟩ := Option.isSome_iff_exists.mp hsome
    constructor <;>
      simp [App.processCommand, Player.seek_relative, hsk, hseek]

/-- C7 witness: successful relative and absolute seeks on seekApp re-query
the position; the failing relative seek errors. -/
theorem C7_witness :
    (App.processCommand seekApp (PlayerCommand.SeekRelative 5) env0).2 = none ∧
    (App.processCommand seekApp (PlayerCommand.SeekAbsolute 7) env0).2 = none ∧
    (App.processCommand seekApp (PlayerCommand.SeekRelative 5) envSeekFail).2 =
      some Err.seekFailed :=
  ⟨((C7_seek_requery seekApp env0 5 7).1 rfl).1,
    (C7_seek_requery seekApp env0 5 7).2.1.1,
    ((C7_seek_requery seekApp envSeekFail 5 7).2.2 rfl rfl).1⟩

/-- C9 witness: Pause on the already-paused pausedApp and Play on the
already-playing playingApp keep the claimed Shared State fields. -/
theorem C9_witness :
    ((App.processCommand pausedApp PlayerCommand.Pause env0).2 = none ∧
      sharedFieldsEq (App.processCommand pausedApp PlayerCommand.Pause env0).1.shared_state
        pausedApp.shared_state) ∧
    ((App.processCommand playingApp PlayerCommand.Play env0).2 = none ∧
      sharedFieldsEq (App.processCommand playingApp PlayerCommand.Play env0).1.shared_state
        playingApp.shared_state) :=
  ⟨(C9_pause_play_idempotent pausedApp env0 rfl rfl (by decide) (by decide)).1 rfl rfl,
    (C9_pause_play_idempotent playingApp env0 rfl rfl (by decide) (by decide)).2 rfl rfl⟩

end Sonicrust
